import Mathlib

/-!
A verification development for the core of the exabgp BGP speaker:
the passive listener (`lib/exabgp/reactor/listener.py`) and the per-peer
session state machine (`lib/exabgp/reactor/peer.py`).

The Python code is shallowly embedded: bytes are `Nat` (0..255), byte
strings are `List Nat`, wall-clock times are `Nat` seconds, the
non-blocking sockets and the lazy protocol-adapter iterators are explicit
event streams consumed by executable step functions.  Every definition
follows the control flow of the source line by line; places where the
source differs from the specification are kept exactly as the source has
them (in particular the length computation `(ord(data[16]) << 16) +
ord(data[17])` of `listener.py` line 133 and the stray `self._state`
assignments of `peer.py`).
-/

/-! ## Listener (`lib/exabgp/reactor/listener.py`) -/

namespace Listener

/-- `MAX_OPEN_WAIT = 10.0` seconds (`listener.py` line 26). -/
def MAX_OPEN_WAIT : Nat := 10

/-- `HEADER_LEN = 19` bytes (`listener.py` line 27). -/
def HEADER_LEN : Nat := 19

/-- `Open.TYPE` is `chr(1)`: the BGP OPEN message type byte. -/
def OPEN_TYPE : Nat := 1

/-- The two stages of a pending accepted socket (`'header'` / `'body'`). -/
inductive Stage
  | header
  | body
deriving DecidableEq, Repr

/-- One entry of the `self._connected` map: `(then, ip, stage, to_read,
received)`; the remote ip plays no role in the validation logic and is
dropped from the record. -/
structure Entry where
  accTime : Nat
  stage : Stage
  toRead : Nat
  received : List Nat
deriving DecidableEq, Repr

/-- The canned `Notify(2,0,...)` replies the listener can write back
(`listener.py` lines 29-32), plus which one was used. -/
inductive Reply
  | bye
  | invalidHeader
  | invalidType
  | invalidSize
deriving DecidableEq, Repr

/-- What one pass of the `connections` body does to one pending socket. -/
inductive StepOut
  | keep (e : Entry)
  | drop (r : Option Reply)
  | yielded (received : List Nat)
  | crash
deriving DecidableEq, Repr

/-- The outcome of `sock.recv(to_read)`: either a chunk of at most
`to_read` bytes, or a `socket.error` whose errno is (`block = true`) or
is not (`block = false`) in `error.block`. -/
inductive RecvResult
  | bytes (data : List Nat)
  | err (block : Bool)
deriving DecidableEq, Repr

/-- The body of `Listener.connections` for one pending socket when
`recv` returned `data` (`listener.py` lines 112-145).  Faithful to the
source: the header checks read the marker and the type byte from the
accumulated buffer `received`, but the declared size is computed as
`(ord(data[16]) << 16) + ord(data[17])` from the most recent chunk
`data`; when `data` has fewer than 18 bytes that read raises an
uncaught `IndexError` (modelled as `.crash`). -/
def recvStep (now : Nat) (e : Entry) (data : List Nat) : StepOut :=
  let toRead := e.toRead - data.length
  let received := e.received ++ data
  if MAX_OPEN_WAIT < now - e.accTime then
    .drop none
  else if toRead ≠ 0 then
    .keep ⟨e.accTime, e.stage, toRead, received⟩
  else
    match e.stage with
    | .header =>
      if received.take 16 ≠ List.replicate 16 0xFF then
        .drop (some .invalidHeader)
      else
        match received.get? 18 with
        | none => .crash
        | some b18 =>
          if b18 ≠ OPEN_TYPE then
            .drop (some .invalidType)
          else
            match data.get? 16, data.get? 17 with
            | some b16, some b17 =>
              let size := b16 * 65536 + b17
              if size < 29 then
                .drop (some .invalidSize)
              else
                .keep ⟨e.accTime, .body, size - HEADER_LEN, received⟩
            | _, _ => .crash
    | .body => .yielded received

/-- The `except socket.error` branch of `Listener.connections`
(`listener.py` lines 146-149): a would-block error deletes the entry
when the open-wait timeout has passed and otherwise leaves it
untouched; any other `socket.error` is caught by the same clause and
silently ignored, also leaving the entry untouched. -/
def errStep (now : Nat) (e : Entry) (block : Bool) : StepOut :=
  if block then
    if MAX_OPEN_WAIT < now - e.accTime then .drop none else .keep e
  else
    .keep e

/-- One scheduler tick of `Listener.connections` for one pending
socket. -/
def tickStep (now : Nat) (e : Entry) (r : RecvResult) : StepOut :=
  match r with
  | .bytes data => recvStep now e data
  | .err block => errStep now e block

/-- The lifecycle of one accepted socket across ticks. -/
inductive LSt
  | pending (e : Entry)
  | closed
  | gone
  | crashed
deriving DecidableEq, Repr

/-- Cumulative observation of a run: the socket lifecycle state, the
notifications written back to the socket, and the `(received, ip)`
events yielded upstream (the ip is omitted). -/
structure LRun where
  st : LSt
  replies : List Reply
  events : List (List Nat)
deriving DecidableEq, Repr

/-- Advance the run by one tick.  On `.yielded` the listener first
writes the `open_bye` notification, deletes the entry and only then
yields upstream (`listener.py` lines 142-145). -/
def lstep (acc : LRun) (input : Nat × RecvResult) : LRun :=
  match acc.st with
  | .pending e =>
    match tickStep input.1 e input.2 with
    | .keep e' => { acc with st := .pending e' }
    | .drop none => { acc with st := .closed }
    | .drop (some rep) => { acc with st := .closed, replies := acc.replies ++ [rep] }
    | .yielded b =>
      { st := .gone
        replies := acc.replies ++ [.bye]
        events := acc.events ++ [b] }
    | .crash => { acc with st := .crashed }
  | _ => acc

/-- Run a freshly accepted socket (accepted at `accTime`, at stage
`header` with `HEADER_LEN` bytes to read and an empty buffer,
`listener.py` line 108) over a sequence of timed recv outcomes. -/
def listenerRun (accTime : Nat) (inputs : List (Nat × RecvResult)) : LRun :=
  inputs.foldl lstep ⟨.pending ⟨accTime, .header, HEADER_LEN, []⟩, [], []⟩

/-- The accept half of `Listener._connections` (`listener.py` lines
89-102) for one listening socket: what `accept()` returned. -/
inductive AcceptEv
  | conn
  | errBlock
  | errOther
deriving DecidableEq, Repr

/-- Outcome of the accept attempt: a fresh pending socket, a silent
skip, or an `AcceptError` that is logged by `logger.critical` and
re-raised (`listener.py` lines 99-102). -/
inductive AcceptOut
  | accepted
  | skipped
  | raisedAcceptError (logged : Bool)
deriving DecidableEq, Repr

/-- `Listener._connections`: a would-block `socket.error` continues to
the next listening socket; any other `socket.error` raises
`AcceptError`, which the surrounding `except NetworkError` clause logs
and re-raises. -/
def acceptOutcome : AcceptEv → AcceptOut
  | .conn => .accepted
  | .errBlock => .skipped
  | .errOther => .raisedAcceptError true

end Listener

/-! ### Concrete byte sequences used by the listener claims -/

namespace Listener

/-- A 19-byte BGP header whose marker is valid, whose type byte is
OPEN and whose 16-bit big-endian length field at bytes 16-17 is
`0x012C = 300`. -/
def header300 : List Nat := List.replicate 16 0xFF ++ [1, 0x2C, 1]

/-- A 19-byte BGP header declaring the minimum-free length `0x0100 =
256` with type OPEN. -/
def header256 : List Nat := List.replicate 16 0xFF ++ [1, 0, 1]

/-- Run of `connections` in which the full `header300` arrives in one
chunk: the source computes `size = (1 <<16) + 0x2C = 65580` instead of
the declared 300. -/
def run300 : LRun :=
  listenerRun 0 [(0, .bytes header300), (0, .bytes (List.replicate 65561 0))]

/-- Run of `connections` in which a valid OPEN of declared length 256
arrives split into chunks of 1, 18 and 237 bytes.  The chunk that
completes the header is the 18-byte one, so `data[16], data[17]` are
bytes 17 and 18 of the header. -/
def run256 : LRun :=
  listenerRun 0
    [(0, .bytes (header256.take 1)),
     (0, .bytes (header256.drop 1)),
     (0, .bytes (List.replicate 237 0))]

end Listener

/-! ## Peer (`lib/exabgp/reactor/peer.py`)

The peer owns two cooperative generators (`_accept` for the inbound
direction, `_connect` for the outbound one) that run inside the `_run`
wrapper, plus the established loop `_connected`.  Generators are
embedded as explicit suspension-point continuations; one `next()` call
(one resume) consumes adapter events from an event list until the
generator yields, returns or raises.  The protocol adapter, the timers
and the process bridge are outside `src/`; their visible behaviour
(which message a lazy read yields next, whether `validate_open` or
`connect` raises, whether the hold timer asks for a keepalive) enters
the model as oracle events, as the spec describes their contracts. -/

namespace Peer

/-- The `STATE` enumeration (`peer.py` lines 31-38). -/
inductive BGPState
  | idle
  | active
  | connect
  | opensent
  | openconfirm
  | established
deriving DecidableEq, Repr

/-- Message classes distinguished by the peer code through
`ord(message.TYPE)`. -/
inductive Msg
  | nop
  | openMsg
  | keepalive
  | update
  | other
deriving DecidableEq, Repr

/-- The exceptions of the `_run` catch ladder (`peer.py` lines
471-624). `.unhandled` covers the final generic clause (including the
`NameError` a loop variable read raises when a lazy producer yields
nothing on its first use). -/
inductive Exc
  | network
  | notify (code subcode : Nat)
  | notification (code subcode : Nat)
  | message (m : Msg)
  | process
  | interrupted
  | unhandled
deriving DecidableEq, Repr

/-- Direction tag of a protocol adapter. -/
inductive Dir
  | dIn
  | dOut
deriving DecidableEq, Repr

/-- A protocol adapter (`Protocol(self)`): only its direction and the
pre-buffered OPEN handed over by `accept(incoming)` are observable in
the peer logic under scrutiny. -/
structure Proto where
  dir : Dir
  openBuf : List Nat := []
deriving DecidableEq, Repr

/-- Oracle events for the lazy adapter calls.  `.msg m` is one element
yielded by the current lazy producer/consumer; `.fin` is its
`StopIteration` (or the plain return of a direct call such as
`connect()` or `validate_open()`); `.exn e` is a raise out of the
call; `.rmsg m kaDue` is one `read_message()` element of the
established loop together with the hold-timer decision
`self.timer.keepalive()` for that iteration. -/
inductive Ev
  | msg (m : Msg)
  | fin
  | exn (e : Exc)
  | rmsg (m : Msg) (kaDue : Bool)
deriving DecidableEq, Repr

/-- Suspension points of `Peer._accept`; each loop constructor stores
the current value of the Python `message` variable. -/
inductive AK
  | start
  | readOpen (last : Msg)
  | sendOpen (last : Msg)
  | sendKa (last : Msg)
  | readKa (last : Msg)
  | final
  | stopped
deriving DecidableEq, Repr

/-- Suspension points of `Peer._connect`. -/
inductive CK
  | start
  | sendOpen (last : Msg)
  | readOpen (last : Msg)
  | readKa (last : Msg)
  | sendKa (last : Msg)
  | final
deriving DecidableEq, Repr

/-- Suspension points of `Peer._connected`: the per-message yield at
line 431 (carrying `first_loop` and the truthiness of `new_routes`),
the keepalive-send subloop, the EOR subloop (carrying its loop
variable and the pending `message` value), and the
`yield False / return` point of the EOR subloops. -/
inductive NK
  | loopYield (firstLoop newRoutes : Bool)
  | ka (lastKa : Msg) (firstLoop newRoutes : Bool)
  | eor (lastEor : Msg) (mVar : Msg)
  | stopped
deriving DecidableEq, Repr

/-- Continuation of the `_run` wrapper: inside `_accept`, inside
`_connect`, or inside `_connected`. -/
inductive RunK
  | accK (k : AK)
  | connK (k : CK)
  | nK (k : NK)
deriving DecidableEq, Repr

/-- A `_loop` slot: `False` (down), `None` (to be re-created) or a
live generator (`peer.py` lines 68-73). -/
inductive Slot
  | dead
  | pending
  | live (k : RunK)
deriving DecidableEq, Repr

/-- The yielded intents: `True` (urgent), `None` (idle), `False`
(stopped) — the docstrings of `_accept`, `_connect`, `_connected`. -/
inductive Intent
  | urgent
  | idle
  | stopped
deriving DecidableEq, Repr

/-- Neighbor configuration fields the peer logic reads. -/
structure Neighbor where
  passive : Bool
  gracefulRestart : Bool
  apiChanges : Bool
deriving DecidableEq, Repr

/-- Environment and adapter facts that are fixed for a run:
`environment.settings().tcp.once`, `reactor.processes.broken(...)`,
whether the sent OPEN announced the GRACEFUL_RESTART capability
(`negotiated.sent_open.capabilities.announced`), and whether
`negotiated.families` is non-empty. -/
structure Env where
  once : Bool
  broken : Bool
  grAnnounced : Bool
  families : Bool
deriving DecidableEq, Repr

/-- The peer state: the fields of `Peer.__init__` (`peer.py` lines
51-91) plus observation logs.  `stray` is the bare `self._state`
attribute that `_accept` and `_connect` assign by mistake instead of
`_in_state`/`_out_state`; `notifications` collects every
`new_notification` written; `closes` counts `close()` calls on
adapters; `unregistered` records `reactor.unschedule(self)`. -/
structure PState where
  running : Bool
  restart : Bool
  restarted : Bool
  skipTime : Nat
  nextSkip : Nat
  haveRoutes : Bool
  teardown : Option Nat
  inState : BGPState
  outState : BGPState
  stray : Option BGPState
  neighbor : Neighbor
  nextNeighbor : Option Neighbor
  inProto : Option Proto
  outProto : Option Proto
  proto : Option Proto
  inLoop : Slot
  outLoop : Slot
  notifications : List (Nat × Nat)
  closes : Nat
  unregistered : Bool
deriving DecidableEq, Repr

/-- The initial peer state (`Peer.__init__`): `FORCE_GRACEFUL = True`
makes `restarted` start true; `_in_loop = False`, `_out_loop = None`. -/
def initState (nb : Neighbor) : PState :=
  { running := true
    restart := true
    restarted := true
    skipTime := 0
    nextSkip := 0
    haveRoutes := true
    teardown := none
    inState := .idle
    outState := .idle
    stray := none
    neighbor := nb
    nextNeighbor := none
    inProto := none
    outProto := none
    proto := none
    inLoop := .dead
    outLoop := .pending
    notifications := []
    closes := 0
    unregistered := false }

/-- `Peer._reset_skip` (`peer.py` lines 93-97). -/
def reset_skip (s : PState) : PState :=
  { s with skipTime := 0, nextSkip := 0 }

/-- `Peer._more_skip` (`peer.py` lines 99-103): `skip_time = now +
next_skip`, then `next_skip = int(1 + next_skip*1.2)` capped at 60.
For every integer `n` reachable here (0 ≤ n ≤ 60) the Python float
expression `int(1 + n*1.2)` equals `1 + (6*n)/5` in exact integer
arithmetic: the fractional part of `6n/5` is one of 0, .2, .4, .6, .8
and the double-rounding error of `n * 1.2` (at most a few ulps, about
1e-15) never crosses an integer boundary, the products for n ∈
{5,10,...,60} rounding exactly to the integer doubles. -/
def more_skip (now : Nat) (s : PState) : PState :=
  let t := 1 + 6 * s.nextSkip / 5
  { s with skipTime := now + s.nextSkip, nextSkip := if 60 < t then 60 else t }

/-- The growth function of `next_skip` applied by `_more_skip`. -/
def growSkip (n : Nat) : Nat :=
  let t := 1 + 6 * n / 5
  if 60 < t then 60 else t

/-- `Peer.stop` (`peer.py` lines 114-118). -/
def stop (s : PState) : PState :=
  reset_skip { s with running := false, restart := false, restarted := false }

/-- `Peer.reload` (`peer.py` lines 120-123). -/
def reload (nb : Neighbor) (s : PState) : PState :=
  reset_skip { s with neighbor := nb, haveRoutes := true }

/-- `Peer.restart` (`peer.py` lines 125-131). -/
def restartOp (nb : Option Neighbor) (s : PState) : PState :=
  reset_skip
    { s with running := false, restart := true, restarted := true, nextNeighbor := nb }

/-- `Peer.teardown` (`peer.py` lines 133-137). -/
def teardownOp (code : Nat) (restartFlag : Bool) (s : PState) : PState :=
  reset_skip { s with running := false, restart := restartFlag, teardown := some code }

/-- `Peer.incoming` (`peer.py` lines 193-199): accept the pre-validated
inbound connection only if `_out_state != STATE.established and
_in_state == STATE.idle`; then build a fresh inbound `Protocol`
pre-loaded with the buffered OPEN (`accept(incoming)`) and mark
`_in_loop = None` (pending re-creation). -/
def incoming (s : PState) (buf : List Nat) : Bool × PState :=
  if s.outState ≠ .established ∧ s.inState = .idle then
    (true, { s with inProto := some ⟨.dIn, buf⟩, inLoop := .pending })
  else
    (false, s)

/-- The flag `_accept` and `_connect` pass to `new_open`
(`new_open(self._restarted)`, `peer.py` lines 228 and 292): it decides
whether the OPEN advertises graceful-restart semantics. -/
def newOpenRestartFlag (s : PState) : Bool :=
  s.restarted

/-- Close both protocol adapters and clear the fields, as every branch
of the `_run` catch ladder does (out first, then in). -/
def close_protos (s : PState) : PState :=
  { s with
    closes := s.closes + (if s.outProto.isSome then 1 else 0)
      + (if s.inProto.isSome then 1 else 0),
    outProto := none,
    inProto := none }

/-- The `_run` catch ladder (`peer.py` lines 471-624).  Every branch
resets both session states to idle, sets `_in_loop = False` and
`_out_loop = None`, and closes and clears both adapters.  The
`NetworkError` branch first applies the back-off (`_more_skip`) and,
under `tcp.once`, stops the peer; the `Notify` branch writes the
notification through each live adapter (best-effort: a failure of the
write is itself caught and logged) before closing. -/
def applyExc (env : Env) (now : Nat) (e : Exc) (s : PState) : PState :=
  let s := { s with inState := .idle, outState := .idle,
                    inLoop := .dead, outLoop := .pending }
  match e with
  | .network =>
    let s := more_skip now s
    let s := close_protos s
    if env.once then stop s else s
  | .notify c sc =>
    let s := { s with notifications := s.notifications
        ++ (if s.outProto.isSome then [(c, sc)] else [])
        ++ (if s.inProto.isSome then [(c, sc)] else []) }
    close_protos s
  | _ => close_protos s

end Peer

namespace Peer

/-- What a resume produced, the state threaded through, and the events
not yet consumed. -/
inductive GOut
  | yield (i : Intent) (k : RunK)
  | raised (e : Exc)
  | finished
deriving DecidableEq, Repr

/-- Shorthand for the step results of the pull functions. -/
abbrev Step := Option (PState × GOut × List Ev)

/-! ### `Peer._accept` (`peer.py` lines 201-273) -/

/-- The `read_keepalive` loop of `_accept` (`peer.py` lines 258-273):
tick the hold timer, yield `False` and return when not running, raise
a non-NOP non-KEEPALIVE message, else yield `None`; when the iterator
ends on a NOP raise `Interrupted`, otherwise set `_in_state =
STATE.established` and yield the final `True`. -/
def accReadKaPull (s : PState) (last : Msg) : List Ev → Step
  | .msg m :: evs =>
    if ¬ s.running then some (s, .yield .stopped (.accK .stopped), evs)
    else if ¬(m = .nop ∨ m = .keepalive) then some (s, .raised (.message m), evs)
    else some (s, .yield .idle (.accK (.readKa m)), evs)
  | .fin :: evs =>
    if last = .nop then some (s, .raised .interrupted, evs)
    else some ({ s with inState := .established }, .yield .urgent (.accK .final), evs)
  | .exn e :: evs => some (s, .raised e, evs)
  | _ => none

/-- The `new_keepalive('ESTABLISHED')` loop of `_accept` (`peer.py`
lines 242-255): yield `False` and return when not running, else yield
`True` per progress element; at the end raise `Interrupted` on NOP,
assign the stray `self._state = STATE.openconfirm` (line 252 — not
`_in_state`), start the hold timer, and enter the keepalive read. -/
def accSendKaPull (s : PState) (last : Msg) : List Ev → Step
  | .msg m :: evs =>
    if ¬ s.running then some (s, .yield .stopped (.accK .stopped), evs)
    else some (s, .yield .urgent (.accK (.sendKa m)), evs)
  | .fin :: evs =>
    if last = .nop then some (s, .raised .interrupted, evs)
    else accReadKaPull { s with stray := some .openconfirm } last evs
  | .exn e :: evs => some (s, .raised e, evs)
  | _ => none

/-- `negotiated.sent(message)` and `validate_open()` of `_accept`
(`peer.py` lines 238-239), then the first pull of the keepalive
send. -/
def accValidate (s : PState) (last : Msg) : List Ev → Step
  | .fin :: evs => accSendKaPull s last evs
  | .exn e :: evs => some (s, .raised e, evs)
  | _ => none

/-- The `new_open(self._restarted)` loop of `_accept` (`peer.py` lines
228-236): yield `False` and return when not running, else yield `True`
per progress element; at the end raise `Interrupted` on NOP and
continue into validation. -/
def accSendOpenPull (s : PState) (last : Msg) : List Ev → Step
  | .msg m :: evs =>
    if ¬ s.running then some (s, .yield .stopped (.accK .stopped), evs)
    else some (s, .yield .urgent (.accK (.sendOpen m)), evs)
  | .fin :: evs =>
    if last = .nop then some (s, .raised .interrupted, evs)
    else accValidate s last evs
  | .exn e :: evs => some (s, .raised e, evs)
  | _ => none

/-- The `read_open` loop of `_accept` (`peer.py` lines 210-225): tick
the open timer, yield `False` and return when not running, raise a
non-NOP non-OPEN message, else yield `None`; when the iterator ends on
a NOP raise `Interrupted`, else record the received OPEN and move to
the OPEN send.  `last = none` models the not-yet-bound Python
`message` variable at the first pull (an immediately empty iterator
would raise `NameError`, the unhandled clause). -/
def accReadOpenPull (s : PState) (last : Option Msg) : List Ev → Step
  | .msg m :: evs =>
    if ¬ s.running then some (s, .yield .stopped (.accK .stopped), evs)
    else if ¬(m = .nop ∨ m = .openMsg) then some (s, .raised (.message m), evs)
    else some (s, .yield .idle (.accK (.readOpen m)), evs)
  | .fin :: evs =>
    match last with
    | none => some (s, .raised .unhandled, evs)
    | some l =>
      if l = .nop then some (s, .raised .interrupted, evs)
      else accSendOpenPull s l evs
  | .exn e :: evs => some (s, .raised e, evs)
  | _ => none

/-- First resume of `_accept`: `self._in_state = STATE.active`
(`peer.py` line 204), the open-wait timer, then the first pull of
`read_open`. -/
def accStart (s : PState) (evs : List Ev) : Step :=
  accReadOpenPull { s with inState := .active } none evs

/-! ### `Peer._connect` (`peer.py` lines 276-350) -/

/-- The `new_keepalive('ESTABLISHED')` loop of `_connect` (`peer.py`
lines 341-350): yields `True` per element with no `running` check; at
the end raise `Interrupted` on NOP, set `_out_state =
STATE.established` and yield the final `True`. -/
def connSendKaPull (s : PState) (last : Msg) : List Ev → Step
  | .msg m :: evs => some (s, .yield .urgent (.connK (.sendKa m)), evs)
  | .fin :: evs =>
    if last = .nop then some (s, .raised .interrupted, evs)
    else some ({ s with outState := .established }, .yield .urgent (.connK .final), evs)
  | .exn e :: evs => some (s, .raised e, evs)
  | _ => none

/-- After the `read_keepalive` loop of `_connect` (`peer.py` lines
336-338): raise `Interrupted` on NOP, else enter the keepalive
send. -/
def connAfterReadKa (s : PState) (last : Msg) (evs : List Ev) : Step :=
  if last = .nop then some (s, .raised .interrupted, evs)
  else connSendKaPull s last evs

/-- The `read_keepalive` loop of `_connect` (`peer.py` lines 328-334):
tick, `break` out of the loop when not running (no stopped sentinel is
yielded), raise a non-NOP non-KEEPALIVE message, else yield `None`. -/
def connReadKaPull (s : PState) (last : Msg) : List Ev → Step
  | .msg m :: evs =>
    if ¬ s.running then connAfterReadKa s m evs
    else if ¬(m = .nop ∨ m = .keepalive) then some (s, .raised (.message m), evs)
    else some (s, .yield .idle (.connK (.readKa m)), evs)
  | .fin :: evs => connAfterReadKa s last evs
  | .exn e :: evs => some (s, .raised e, evs)
  | _ => none

/-- `negotiated.received(message)`, `validate_open()`, the stray
`self._state = STATE.openconfirm` (`peer.py` line 322 — not
`_out_state`), the hold timer, then the keepalive read. -/
def connValidate (s : PState) (last : Msg) : List Ev → Step
  | .fin :: evs => connReadKaPull { s with stray := some .openconfirm } last evs
  | .exn e :: evs => some (s, .raised e, evs)
  | _ => none

/-- After the `read_open` loop of `_connect` (`peer.py` lines
315-317): raise `Interrupted` on NOP, else continue into
validation. -/
def connAfterReadOpen (s : PState) (last : Msg) (evs : List Ev) : Step :=
  if last = .nop then some (s, .raised .interrupted, evs)
  else connValidate s last evs

/-- The `read_open` loop of `_connect` (`peer.py` lines 306-313):
tick, `break` when not running (no stopped sentinel), raise a non-NOP
non-OPEN message, else yield `None`. -/
def connReadOpenPull (s : PState) (last : Msg) : List Ev → Step
  | .msg m :: evs =>
    if ¬ s.running then connAfterReadOpen s m evs
    else if ¬(m = .nop ∨ m = .openMsg) then some (s, .raised (.message m), evs)
    else some (s, .yield .idle (.connK (.readOpen m)), evs)
  | .fin :: evs => connAfterReadOpen s last evs
  | .exn e :: evs => some (s, .raised e, evs)
  | _ => none

/-- The `new_open(self._restarted)` loop of `_connect` (`peer.py`
lines 292-300): yields `True` per element with no `running` check; at
the end raise `Interrupted` on NOP (or `NameError` when nothing was
ever yielded), record the sent OPEN, set `_out_state = STATE.opensent`
and enter the OPEN read. -/
def connSendOpenPull (s : PState) (last : Option Msg) : List Ev → Step
  | .msg m :: evs => some (s, .yield .urgent (.connK (.sendOpen m)), evs)
  | .fin :: evs =>
    match last with
    | none => some (s, .raised .unhandled, evs)
    | some l =>
      if l = .nop then some (s, .raised .interrupted, evs)
      else connReadOpenPull { s with outState := .opensent } l evs
  | .exn e :: evs => some (s, .raised e, evs)
  | _ => none

/-- First resume of `_connect` (`peer.py` lines 279-293): the stray
`self._state = STATE.active` (line 279), the broken-process check that
clears `running` but falls through, the adapter creation, the
non-blocking `connect()` (one event: success or raise), `_reset_skip`,
`_out_state = STATE.connect`, then the first pull of `new_open`. -/
def connStart (env : Env) (s : PState) (evs : List Ev) : Step :=
  let s := { s with stray := some .active }
  let s := if env.broken then { s with running := false } else s
  let s := { s with outProto := some ⟨.dOut, []⟩ }
  match evs with
  | .fin :: evs =>
    connSendOpenPull { reset_skip s with outState := .connect } none evs
  | .exn e :: evs => some (s, .raised e, evs)
  | _ => none

end Peer

namespace Peer

/-! ### `Peer._connected` (`peer.py` lines 353-447) -/

/-- The termination code of `_connected` (`peer.py` lines 437-447),
reached when the `while self._running` loop exits: with
graceful-restart configured and the GRACEFUL_RESTART capability
announced in the sent OPEN, close silently and return; otherwise
`if self._teardown:` (Python truthiness: both `None` and `0` are
falsy) swap the armed code out and raise `Notify(6, code)`, else raise
`Notify(6, 3)`. -/
def cnExit (env : Env) (s : PState) : PState × GOut :=
  if s.neighbor.gracefulRestart ∧ env.grAnnounced then
    ({ s with closes := s.closes + 1 }, .finished)
  else
    match s.teardown with
    | some c =>
      if c ≠ 0 then ({ s with teardown := none }, .raised (.notify 6 c))
      else (s, .raised (.notify 6 3))
    | none => (s, .raised (.notify 6 3))

/-- The per-message yield of the established loop (`peer.py` line 431):
`yield True if new_routes or message.TYPE != NOP.TYPE else None`. -/
def cnLoopYield (s : PState) (firstLoop newRoutes : Bool) (mVar : Msg) (evs : List Ev) :
    Step :=
  some (s, .yield (if newRoutes ∨ mVar ≠ .nop then .urgent else .idle)
    (.nK (.loopYield firstLoop newRoutes)), evs)

/-- The EOR subloops of the established loop (`peer.py` lines 410-428):
after the first UPDATE batch completes, iterate `new_eors()` when
families were negotiated, else `new_keepalive('EOR')` — both with the
same shape: `yield False` and return when not running, else `yield
True`; at the end raise `Interrupted` when the loop variable is NOP
(`NameError`, the unhandled clause, when the producer yielded nothing),
then fall through to the per-message yield with `new_routes = None` and
`first_loop` already cleared. -/
def cnEorPull (s : PState) (lastEor : Option Msg) (mVar : Msg) : List Ev → Step
  | .msg e :: evs =>
    if ¬ s.running then some (s, .yield .stopped (.nK .stopped), evs)
    else some (s, .yield .urgent (.nK (.eor e mVar)), evs)
  | .fin :: evs =>
    match lastEor with
    | none => some (s, .raised .unhandled, evs)
    | some l =>
      if l = .nop then some (s, .raised .interrupted, evs)
      else cnLoopYield s false false mVar evs
  | .exn e :: evs => some (s, .raised e, evs)
  | _ => none

/-- The UPDATE-stream part of the established loop body (`peer.py`
lines 396-431): start a `new_update()` batch when `_have_routes` is
set and none is in flight, advance an in-flight batch by one
`next()` (one event: progress or `StopIteration`), send the EOR
markers on the first completion, then reach the per-message yield. -/
def cnUpdateAdvance (s : PState) (firstLoop newRoutes : Bool) (mVar : Msg)
    (evs : List Ev) : Step :=
  let p := if s.haveRoutes ∧ ¬ newRoutes
    then ({ s with haveRoutes := false }, true) else (s, newRoutes)
  let s := p.1
  let nr := p.2
  if nr then
    match evs with
    | .msg _ :: evs => cnLoopYield s firstLoop true mVar evs
    | .fin :: evs =>
      if firstLoop then cnEorPull s none mVar evs
      else cnLoopYield s false false mVar evs
    | .exn e :: evs => some (s, .raised e, evs)
    | _ => none
  else
    cnLoopYield s firstLoop false mVar evs

/-- The keepalive-send subloop of the established loop (`peer.py`
lines 385-391): `for message in self.proto.new_keepalive(): yield
True` (overwriting the loop variable `message`), then raise
`Interrupted` when the current `message` is NOP, and continue the
body. -/
def cnKaPull (s : PState) (lastKa : Msg) (firstLoop newRoutes : Bool) : List Ev → Step
  | .msg k :: evs => some (s, .yield .urgent (.nK (.ka k firstLoop newRoutes)), evs)
  | .fin :: evs =>
    if lastKa = .nop then some (s, .raised .interrupted, evs)
    else cnUpdateAdvance s firstLoop newRoutes lastKa evs
  | .exn e :: evs => some (s, .raised e, evs)
  | _ => none

/-- The established-loop body for one `read_message()` element
(`peer.py` lines 377-431): count UPDATE routes (a log), tick the hold
timer, send a keepalive when the timer requires one, then the
UPDATE-stream logic and the per-message yield. -/
def cnBody (s : PState) (m : Msg) (kaDue : Bool) (firstLoop newRoutes : Bool)
    (evs : List Ev) : Step :=
  if kaDue then cnKaPull s m firstLoop newRoutes evs
  else cnUpdateAdvance s firstLoop newRoutes m evs

/-- The `for message in self.proto.read_message():` pull under `while
self._running:` (`peer.py` lines 376-377): an exhausted iterator
re-tests the (unchanged) `while` condition and starts a fresh
`read_message()`. -/
def cnReadPull (s : PState) (firstLoop newRoutes : Bool) : List Ev → Step
  | .rmsg m kaDue :: evs => cnBody s m kaDue firstLoop newRoutes evs
  | .fin :: evs => cnReadPull s firstLoop newRoutes evs
  | .exn e :: evs => some (s, .raised e, evs)
  | _ => none

/-- The `while self._running:` test (`peer.py` line 376): exit into the
termination code when clear, else pull the next message. -/
def cnWhile (env : Env) (s : PState) (firstLoop newRoutes : Bool)
    (evs : List Ev) : Step :=
  if ¬ s.running then
    let p := cnExit env s
    some (p.1, p.2, evs)
  else cnReadPull s firstLoop newRoutes evs

/-- First resume of `_connected` (`peer.py` lines 356-376): announce
the peer up through the process bridge when `api.neighbor_changes` is
set (a `ProcessError` there becomes `Notify(6,0)`), then enter the
loop with `first_loop = True` and no UPDATE batch in flight. -/
def cnStart (env : Env) (s : PState) (evs : List Ev) : Step :=
  if s.neighbor.apiChanges then
    match evs with
    | .fin :: evs => cnWhile env s true false evs
    | .exn .process :: evs => some (s, .raised (.notify 6 0), evs)
    | .exn e :: evs => some (s, .raised e, evs)
    | _ => none
  else cnWhile env s true false evs

/-! ### `Peer._run` and `Peer.run` (`peer.py` lines 147-191, 449-469) -/

/-- Resume the `_run` generator from continuation `k`.  The end of an
establishment generator continues, in the same resume, into `self.proto
= self._in_proto` (or `_out_proto`), the `if not event: return` check,
and the first resume of `_connected` (`peer.py` lines 452-468). -/
def genResume (env : Env) (s : PState) (k : RunK) (evs : List Ev) : Step :=
  match k with
  | .accK .start => accStart s evs
  | .accK (.readOpen last) => accReadOpenPull s (some last) evs
  | .accK (.sendOpen last) => accSendOpenPull s last evs
  | .accK (.sendKa last) => accSendKaPull s last evs
  | .accK (.readKa last) => accReadKaPull s last evs
  | .accK .final => cnStart env { s with proto := s.inProto } evs
  | .accK .stopped => some ({ s with proto := s.inProto }, .finished, evs)
  | .connK .start => connStart env s evs
  | .connK (.sendOpen last) => connSendOpenPull s (some last) evs
  | .connK (.readOpen last) => connReadOpenPull s last evs
  | .connK (.readKa last) => connReadKaPull s last evs
  | .connK (.sendKa last) => connSendKaPull s last evs
  | .connK .final => cnStart env { s with proto := s.outProto } evs
  | .nK (.loopYield firstLoop newRoutes) => cnWhile env s firstLoop newRoutes evs
  | .nK (.ka lastKa firstLoop newRoutes) => cnKaPull s lastKa firstLoop newRoutes evs
  | .nK (.eor lastEor mVar) => cnEorPull s (some lastEor) mVar evs
  | .nK .stopped => some (s, .finished, evs)

/-- One `next()` call on `_run` as `Peer.run` sees it: a raised
exception is absorbed by the catch ladder inside the same call and the
generator then returns (`StopIteration` at the call site, `r = none`). -/
def runResume (env : Env) (now : Nat) (s : PState) (k : RunK) (evs : List Ev) :
    Option (PState × Option (Intent × RunK)) :=
  match genResume env s k evs with
  | some (s', .yield i k', _) => some (s', some (i, k'))
  | some (s', .raised e, _) => some (applyExc env now e s', none)
  | some (s', .finished, _) => some (s', none)
  | none => none

/-- Whether a `_loop` slot is truthy in Python (`False` and `None` are
falsy, a generator object is truthy). -/
def truthySlot : Slot → Bool
  | .live _ => true
  | _ => false

/-- One call of `Peer.run` (`peer.py` lines 147-191): resume or
(re-)create the in slot, then the out slot (only resumed once
`_skip_time < now`, only created when the neighbor is not passive),
then the bottom block: when both slots are falsy, either re-arm under
`_restart` (installing a queued replacement neighbor and setting
`running`) or close any leftover adapters and unschedule the peer. -/
def runTick (env : Env) (now : Nat) (s : PState) (inEvs outEvs : List Ev) :
    Option PState := do
  let s ←
    match s.inLoop with
    | .live k =>
      (runResume env now s k inEvs).map fun p =>
        match p.2 with
        | some (_, k') => { p.1 with inLoop := .live k' }
        | none => { p.1 with inLoop := .dead }
    | .pending => some { s with inLoop := .live (.accK .start) }
    | .dead => some s
  let s ←
    match s.outLoop with
    | .live k =>
      if s.skipTime < now then
        (runResume env now s k outEvs).map fun p =>
          match p.2 with
          | some (_, k') => { p.1 with outLoop := .live k' }
          | none => { p.1 with outLoop := .pending }
      else some s
    | .pending =>
      if s.neighbor.passive then some { s with outLoop := .dead }
      else some { s with outLoop := .live (.connK .start) }
    | .dead => some s
  if ¬ truthySlot s.inLoop ∧ ¬ truthySlot s.outLoop then
    if s.restart then
      let s :=
        match s.nextNeighbor with
        | some nb => { s with neighbor := nb, nextNeighbor := none }
        | none => s
      some { s with running := true }
    else
      some { s with
        closes := s.closes + (if s.outProto.isSome then 1 else 0)
          + (if s.inProto.isSome then 1 else 0),
        unregistered := true }
  else
    some s

/-- Reactor-level actions on a peer: one scheduler tick (with the
adapter events each direction consumes), or one of the control
operations invoked between ticks. -/
inductive Act
  | tick (now : Nat) (inEvs outEvs : List Ev)
  | stopA
  | restartA (nb : Option Neighbor)
  | teardownA (code : Nat) (restartFlag : Bool)
  | reloadA (nb : Neighbor)
  | incomingA (buf : List Nat)
deriving DecidableEq, Repr

/-- Apply one action. -/
def exec (env : Env) (os : Option PState) (a : Act) : Option PState :=
  os.bind fun s =>
    match a with
    | .tick now inEvs outEvs => runTick env now s inEvs outEvs
    | .stopA => some (stop s)
    | .restartA nb => some (restartOp nb s)
    | .teardownA c r => some (teardownOp c r s)
    | .reloadA nb => some (reload nb s)
    | .incomingA buf => some ((incoming s buf).2)

/-- Run a list of reactor actions from the freshly constructed peer. -/
def runActs (env : Env) (nb : Neighbor) (acts : List Act) : Option PState :=
  acts.foldl (exec env) (some (initState nb))

end Peer

/-! ### Concrete configurations and traces used by the peer claims -/

namespace Peer

/-- Environment for the double-establishment trace: `tcp.once` unset,
process bridge healthy, GRACEFUL_RESTART announced in the sent OPEN,
families negotiated. -/
def env3 : Env := ⟨false, false, true, true⟩

/-- Neighbor for the double-establishment trace: active (not passive),
graceful-restart configured, no api notifications. -/
def nb3 : Neighbor := ⟨false, true, false⟩

/-- A reactor trace reaching `in_state = established ∧ out_state =
established`.  The outbound generator starts first and is stalled in
its OPEN send; an inbound connection is accepted and establishes fully
(`in_state = established`); `restart()` clears `running`; the inbound
`_run` then enters `_connected`, whose graceful-restart branch closes
silently, leaving `in_state = established` behind; the outbound
generator, whose read loops `break` on `running` instead of stopping,
completes its handshake and sets `out_state = established`. -/
def acts3 : List Act :=
  [ .tick 1 [] [],
    .incomingA [1, 2, 3],
    .tick 1 [] [.fin, .msg .nop],
    .tick 1 [.msg .openMsg] [.msg .nop],
    .tick 1 [.fin, .msg .openMsg] [.msg .nop],
    .tick 1 [.fin, .fin, .msg .keepalive] [.msg .nop],
    .tick 1 [.fin, .msg .keepalive] [.msg .nop],
    .tick 1 [.fin] [.msg .openMsg],
    .restartA none,
    .tick 1 [] [.fin, .msg .openMsg, .fin, .msg .keepalive, .msg .keepalive],
    .tick 1 [] [.fin] ]

/-- Environment with every optional feature off. -/
def env8 : Env := ⟨false, false, false, false⟩

/-- A passive neighbor with no graceful restart and no api
notifications. -/
def nb8 : Neighbor := ⟨true, false, false⟩

/-- An inbound-only trace driving `_accept` up to the point right
after its KEEPALIVE has been sent (the `new_keepalive` loop finished,
`peer.py` line 252 executed). -/
def acts8pre : List Act :=
  [ .incomingA [9],
    .tick 1 [] [],
    .tick 1 [.msg .openMsg] [],
    .tick 1 [.fin, .msg .openMsg] [],
    .tick 1 [.fin, .fin, .msg .keepalive] [],
    .tick 1 [.fin, .msg .keepalive] [] ]

/-- The same trace continued through the KEEPALIVE read. -/
def acts8full : List Act := acts8pre ++ [.tick 1 [.fin] []]

/-- An established inbound session whose teardown was armed with
subcode 0 and whose `running` flag is clear. -/
def s60 : PState :=
  { initState nb8 with
      running := false
      teardown := some 0
      inState := .established
      inProto := some ⟨.dIn, []⟩
      proto := some ⟨.dIn, []⟩ }

/-- A freshly constructed peer whose `running` flag is clear. -/
def s70 : PState := { initState nb3 with running := false }

end Peer

/-! ## Listener theorems (claims C1, C2, C9) -/

namespace Listener

lemma lstep_body (now accT : Nat) (recv data : List Nat) (replies : List Reply)
    (events : List (List Nat)) (htime : now - accT ≤ MAX_OPEN_WAIT) :
    lstep ⟨.pending ⟨accT, .body, data.length, recv⟩, replies, events⟩ (now, .bytes data)
      = ⟨.gone, replies ++ [.bye], events ++ [recv ++ data]⟩ := by
  unfold lstep tickStep recvStep
  dsimp only
  simp [Nat.not_lt.mpr htime]

lemma step1_eq : lstep ⟨.pending ⟨0, .header, HEADER_LEN, []⟩, [], []⟩ (0, .bytes header300)
    = ⟨.pending ⟨0, .body, 65561, header300⟩, [], []⟩ := by decide

lemma run300_eq : run300 = ⟨.gone, [.bye], [header300 ++ List.replicate 65561 0]⟩ := by
  have h65 : (65561 : Nat) = (List.replicate 65561 (0 : Nat)).length :=
    (List.length_replicate 65561 0).symm
  have h2 : lstep ⟨.pending ⟨0, .body, 65561, header300⟩, [], []⟩
      (0, .bytes (List.replicate 65561 0))
      = ⟨.gone, [] ++ [.bye], [] ++ [header300 ++ List.replicate 65561 0]⟩ := by
    nth_rewrite 1 [h65]
    exact lstep_body 0 0 header300 (List.replicate 65561 0) [] [] (by decide)
  unfold run300 listenerRun
  rw [List.foldl_cons, List.foldl_cons, List.foldl_nil, step1_eq, h2]
  exact congrArg₂ (fun a b => LRun.mk .gone a b) (List.nil_append _) (List.nil_append _)

end Listener

/-- C1: the listener is claimed to yield an upstream event only if the
declared length in the header (the 16-bit big-endian integer at bytes
16-17 of the buffer) is at least 29 and equals the number of buffered
bytes.  The code instead computes the length as
`(ord(data[16]) << 16) + ord(data[17])` (`listener.py` line 133): for
the single-chunk header `header300`, whose declared length is
`1*256 + 0x2C = 300`, it waits for `(1 <<16) + 0x2C = 65580` bytes and
then yields an event of 65580 buffered bytes — an upstream event whose
buffered byte count (65580 > 300) differs from the declared length
(300). -/
theorem C1_yield_with_wrong_declared_length :
    Listener.run300.events.length = 1 ∧
    (Listener.run300.events.getD 0 [])[16]? = some 0x01 ∧
    (Listener.run300.events.getD 0 [])[17]? = some 0x2C ∧
    (0x01 : Nat) * 256 + 0x2C = 300 ∧
    300 < (Listener.run300.events.getD 0 []).length := by
  rw [Listener.run300_eq]
  refine ⟨rfl, ?_, ?_, by norm_num, ?_⟩
  · show (Listener.header300 ++ List.replicate 65561 0)[16]? = some 0x01
    rw [List.getElem?_append_left (by decide)]
    decide
  · show (Listener.header300 ++ List.replicate 65561 0)[17]? = some 0x2C
    rw [List.getElem?_append_left (by decide)]
    decide
  · show 300 < (Listener.header300 ++ List.replicate 65561 0).length
    rw [List.length_append, List.length_replicate]
    decide

/-- C2: a valid OPEN of declared length 256 (16-bit big-endian field
`01 00` at bytes 16-17), delivered in non-empty chunks of sizes 1, 18
and 237, is claimed to produce exactly one upstream event with the
concatenated bytes.  Because the source parses the length from the most
recent chunk (`data[16], data[17]`, which here are header bytes 17 and
18, giving `0 * 65536 + 1 = 1 < 29`) instead of from the accumulated
buffer, the listener instead replies with the invalid-size Notification
and drops the socket: no event is ever produced. -/
theorem C2_valid_open_dropped_when_chunked :
    Listener.run256 = ⟨.closed, [.invalidSize], []⟩ ∧ Listener.run256.events = [] := by
  constructor <;> decide

/-- C9 (counterexample): a read error on a pending socket whose errno is
not a would-block errno is silently swallowed by `connections`'s
`except socket.error` clause (`listener.py` lines 146-149), leaving the
entry untouched — no `AcceptError` is raised, contrary to the claim;
and a would-block read error after `MAX_OPEN_WAIT` seconds drops the
entry rather than leaving it untouched. -/
theorem C9_read_error_swallowed :
    Listener.tickStep 0 ⟨0, .header, 19, []⟩ (.err false)
        = .keep ⟨0, .header, 19, []⟩ ∧
    Listener.tickStep 11 ⟨0, .header, 19, []⟩ (.err true) = .drop none := by
  constructor <;> decide

/-- C9 (amended): accept errors that are not would-block raise
`AcceptError`, which is logged and re-raised, and would-block accept
errors skip the socket; read errors that are not would-block are
silently swallowed, leaving the pending entry untouched; would-block
read errors leave the entry untouched unless the entry is older than
`MAX_OPEN_WAIT`, in which case it is dropped. -/
theorem C9_error_handling_characterization :
    Listener.acceptOutcome .errOther = .raisedAcceptError true ∧
    Listener.acceptOutcome .errBlock = .skipped ∧
    (∀ now e, Listener.tickStep now e (.err false) = .keep e) ∧
    (∀ now e, Listener.tickStep now e (.err true) =
      if Listener.MAX_OPEN_WAIT < now - e.accTime then .drop none else .keep e) := by
  refine ⟨rfl, rfl, fun now e => rfl, fun now e => ?_⟩
  simp [Listener.tickStep, Listener.errStep]

/-! ## Peer theorems (claims C3, C4, C5, C6, C7, C8, C10) -/

/-- C3: the claim states that for every peer and every reachable
scheduler step, `in_state = established` and `out_state = established`
never hold simultaneously.  The concrete reactor trace `acts3` —
inbound establishment completing while the outbound generator is
stalled mid-OPEN-send, a `restart()` clearing `running`, the inbound
`_connected` closing silently under graceful restart (leaving
`in_state = established` in place), and the outbound generator
finishing its handshake because its read loops `break` on `running`
instead of yielding the stopped sentinel — drives the peer into a
state with both directions established at once. -/
theorem C3_both_established_reachable :
    (Peer.runActs Peer.env3 Peer.nb3 Peer.acts3).map
        (fun s => (s.inState, s.outState))
      = some (.established, .established) := by decide

/-- C4: `incoming(connection)` accepts exactly when `out_state ≠
established` and `in_state = idle`; on acceptance it installs a fresh
inbound protocol adapter pre-loaded with the buffered OPEN and marks
the `in_loop` slot pending-start (`None`), and on rejection it returns
false and leaves the peer state unchanged. -/
theorem C4_incoming_characterization :
    ∀ (s : Peer.PState) (buf : List Nat),
      ((Peer.incoming s buf).1 = true ↔
        s.outState ≠ .established ∧ s.inState = .idle) ∧
      ((Peer.incoming s buf).1 = true →
        (Peer.incoming s buf).2
          = { s with inProto := some ⟨.dIn, buf⟩, inLoop := .pending }) ∧
      ((Peer.incoming s buf).1 = false → (Peer.incoming s buf).2 = s) := by
  intro s buf
  by_cases h : s.outState ≠ .established ∧ s.inState = .idle
  · simp [Peer.incoming, h]
  · simp [Peer.incoming, h]

/-- C4 (witness): a freshly constructed peer accepts an inbound
connection and stores the buffered OPEN in the new inbound adapter. -/
theorem C4_incoming_witness :
    (Peer.incoming (Peer.initState Peer.nb3) [7]).1 = true ∧
    (Peer.incoming (Peer.initState Peer.nb3) [7]).2
      = { Peer.initState Peer.nb3 with
            inProto := some ⟨.dIn, [7]⟩, inLoop := .pending } :=
  have h := C4_incoming_characterization (Peer.initState Peer.nb3) [7]
  have h1 : (Peer.incoming (Peer.initState Peer.nb3) [7]).1 = true :=
    h.1.mpr (by decide)
  ⟨h1, h.2.1 h1⟩

/-- C5: on a `NetworkError` caught by `_run` (without `tcp.once`),
`skip_until` becomes `now + next_skip` and `next_skip` becomes
`min(60, floor(1 + 1.2·next_skip))`; starting from 0 the growth
sequence begins 1, 2, 3; the growth function is monotone
non-decreasing and capped at 60 on the reachable range; and
`skip_until`/`next_skip` reset to 0 on `stop()`, on `reload()`, and on
a successful non-blocking `connect()` at the start of `_connect`. -/
theorem C5_backoff_characterization :
    (∀ (env : Peer.Env) (now : Nat) (s : Peer.PState), env.once = false →
      (Peer.applyExc env now .network s).skipTime = now + s.nextSkip ∧
      (Peer.applyExc env now .network s).nextSkip
        = min 60 (1 + 6 * s.nextSkip / 5)) ∧
    (Peer.growSkip 0 = 1 ∧ Peer.growSkip 1 = 2 ∧ Peer.growSkip 2 = 3) ∧
    (∀ n : Nat, n ≤ 60 → n ≤ Peer.growSkip n ∧ Peer.growSkip n ≤ 60) ∧
    (∀ s, (Peer.stop s).skipTime = 0 ∧ (Peer.stop s).nextSkip = 0) ∧
    (∀ nb s, (Peer.reload nb s).skipTime = 0 ∧ (Peer.reload nb s).nextSkip = 0) ∧
    (∀ (env : Peer.Env) (s : Peer.PState) (m : Peer.Msg) (evs : List Peer.Ev),
      (Peer.connStart env s (.fin :: .msg m :: evs)).map
        (fun p => (p.1.skipTime, p.1.nextSkip)) = some (0, 0)) := by
  refine ⟨?_, ⟨by decide, by decide, by decide⟩, ?_, fun s => ⟨rfl, rfl⟩,
    fun nb s => ⟨rfl, rfl⟩, ?_⟩
  · intro env now s h
    simp only [Peer.applyExc, Peer.more_skip, Peer.close_protos, h, if_false]
    refine ⟨rfl, ?_⟩
    simp only [Bool.false_eq_true, if_false]
    rcases Nat.lt_or_ge 60 (1 + 6 * s.nextSkip / 5) with h1 | h1
    · simp [h1, Nat.min_eq_left (Nat.le_of_lt h1)]
    · simp [Nat.not_lt.mpr h1, Nat.min_eq_right h1]
  · intro n hn
    unfold Peer.growSkip
    rcases Nat.lt_or_ge 60 (1 + 6 * n / 5) with h1 | h1
    · simp [h1]
      omega
    · simp [Nat.not_lt.mpr h1]
      omega
  · intro env s m evs
    unfold Peer.connStart
    by_cases hb : env.broken <;> simp [hb, Peer.connSendOpenPull, Peer.reset_skip]

/-- C5 (witness): from `next_skip = 2` a `NetworkError` at time 5 sets
`skip_until = 7` and `next_skip = 3`, and the growth function keeps
2 within the cap. -/
theorem C5_backoff_witness :
    ((Peer.applyExc Peer.env3 5 .network
        { Peer.initState Peer.nb3 with nextSkip := 2 }).skipTime = 7 ∧
      (Peer.applyExc Peer.env3 5 .network
        { Peer.initState Peer.nb3 with nextSkip := 2 }).nextSkip = 3) ∧
    (2 ≤ Peer.growSkip 2 ∧ Peer.growSkip 2 ≤ 60) := by
  have h1 := C5_backoff_characterization.1 Peer.env3 5
    { Peer.initState Peer.nb3 with nextSkip := 2 } (by decide)
  have h2 := C5_backoff_characterization.2.2.1 2 (by decide)
  exact ⟨⟨h1.1, h1.2⟩, h2⟩

/-- C6 (counterexample): with a teardown subcode armed at value 0 and
no graceful restart, the established loop's exit emits
`Notification(6,3)` — not `Notification(6,0)` — and leaves the armed
subcode in place, because `if self._teardown:` treats the armed 0 as
falsy (`peer.py` lines 444-447). -/
theorem C6_zero_subcode_counterexample :
    (Peer.runResume Peer.env8 1 Peer.s60 (.nK (.loopYield false false)) []).map
        (fun p => (p.1.notifications, p.1.teardown, p.2))
      = some ([(6, 3)], some 0, none) ∧
    Peer.s60.teardown = some 0 ∧ Peer.s60.running = false := by
  refine ⟨by decide, by decide, by decide⟩

/-- C6 (amended): when the established loop exits because `running` is
clear, then: with graceful restart configured and announced the
session closes without any Notification; otherwise an armed *nonzero*
teardown subcode is cleared and `Notify(6, subcode)` is raised, while
an armed zero subcode (or none) results in `Notify(6,3)` with the
armed value left unchanged; a raised `Notify` is then written through
each live adapter by the catch ladder. -/
theorem C6_teardown_exit_characterization :
    ∀ (env : Peer.Env) (s : Peer.PState) (fl nr : Bool) (evs : List Peer.Ev),
      s.running = false →
      (Peer.genResume env s (.nK (.loopYield fl nr)) evs =
        if s.neighbor.gracefulRestart ∧ env.grAnnounced then
          some ({ s with closes := s.closes + 1 }, .finished, evs)
        else
          match s.teardown with
          | some c =>
            if c ≠ 0 then
              some ({ s with teardown := none }, .raised (.notify 6 c), evs)
            else some (s, .raised (.notify 6 3), evs)
          | none => some (s, .raised (.notify 6 3), evs)) ∧
      (∀ (now c sc : Nat), (Peer.applyExc env now (.notify c sc) s).notifications
        = s.notifications ++ (if s.outProto.isSome then [(c, sc)] else [])
          ++ (if s.inProto.isSome then [(c, sc)] else [])) := by
  intro env s fl nr evs h
  constructor
  · unfold Peer.genResume Peer.cnWhile Peer.cnExit
    rw [h]
    by_cases hgr : s.neighbor.gracefulRestart = true ∧ env.grAnnounced = true
    · simp [hgr]
    · cases hts : s.teardown with
      | none => simp [hgr, hts]
      | some c =>
        by_cases hc : c = 0 <;> simp [hgr, hts, hc]
  · intro now c sc
    simp [Peer.applyExc, Peer.close_protos]

/-- C6 (witness): the armed-zero state `s60` exits the established
loop by raising `Notify(6,3)`. -/
theorem C6_teardown_exit_witness :
    Peer.s60.running = false ∧
    Peer.genResume Peer.env8 Peer.s60 (.nK (.loopYield false false)) []
      = some (Peer.s60, .raised (.notify 6 3), []) :=
  ⟨by decide, by
    have h := (C6_teardown_exit_characterization Peer.env8 Peer.s60 false false []
      (by decide)).1
    rw [h]
    decide⟩

/-- C7 (counterexample): `_connect`, suspended in its OPEN-send loop
with `running` clear, yields *urgent* on the next progress element —
not the stopped sentinel — contradicting the claim that both
establishment generators check `running` at every yield boundary. -/
theorem C7_connect_yields_urgent_when_stopped :
    Peer.genResume Peer.env3 Peer.s70 (.connK (.sendOpen .openMsg)) [.msg .openMsg]
      = some (Peer.s70, .yield .urgent (.connK (.sendOpen .openMsg)), []) ∧
    Peer.s70.running = false := by
  refine ⟨by decide, by decide⟩

/-- C7 (amended): `_accept` checks `running` before every yield of its
four read/send loops, yields the stopped sentinel `False` and then
terminates (the next resume of the stopped continuation finishes the
generator); `_connect` does not: its OPEN-send and KEEPALIVE-send
loops yield *urgent* without any check, and its two read loops `break`
out into the continuation of the handshake instead of yielding the
sentinel. -/
theorem C7_yield_boundary_checks :
    ∀ (s : Peer.PState) (m last : Peer.Msg) (evs : List Peer.Ev),
      s.running = false →
      (Peer.accReadOpenPull s (some last) (.msg m :: evs)
        = some (s, .yield .stopped (.accK .stopped), evs)) ∧
      (Peer.accSendOpenPull s last (.msg m :: evs)
        = some (s, .yield .stopped (.accK .stopped), evs)) ∧
      (Peer.accSendKaPull s last (.msg m :: evs)
        = some (s, .yield .stopped (.accK .stopped), evs)) ∧
      (Peer.accReadKaPull s last (.msg m :: evs)
        = some (s, .yield .stopped (.accK .stopped), evs)) ∧
      (∀ (env : Peer.Env) (evs2 : List Peer.Ev),
        Peer.genResume env s (.accK .stopped) evs2
          = some ({ s with proto := s.inProto }, .finished, evs2)) ∧
      (Peer.connSendOpenPull s (some last) (.msg m :: evs)
        = some (s, .yield .urgent (.connK (.sendOpen m)), evs)) ∧
      (Peer.connSendKaPull s last (.msg m :: evs)
        = some (s, .yield .urgent (.connK (.sendKa m)), evs)) ∧
      (Peer.connReadOpenPull s last (.msg m :: evs)
        = Peer.connAfterReadOpen s m evs) ∧
      (Peer.connReadKaPull s last (.msg m :: evs)
        = Peer.connAfterReadKa s m evs) := by
  intro s m last evs h
  refine ⟨?_, ?_, ?_, ?_, fun env evs2 => rfl, rfl, rfl, ?_, ?_⟩ <;>
    simp [Peer.accReadOpenPull, Peer.accSendOpenPull, Peer.accSendKaPull,
      Peer.accReadKaPull, Peer.connReadOpenPull, Peer.connReadKaPull, h]

/-- C7 (witness): the stopped peer `s70` yields the stopped sentinel
from `_accept`'s OPEN read but urgent from `_connect`'s OPEN send. -/
theorem C7_yield_boundary_witness :
    Peer.s70.running = false ∧
    Peer.accReadOpenPull Peer.s70 (some .nop) [.msg .nop]
      = some (Peer.s70, .yield .stopped (.accK .stopped), []) ∧
    Peer.connSendOpenPull Peer.s70 (some .nop) [.msg .nop]
      = some (Peer.s70, .yield .urgent (.connK (.sendOpen .nop)), []) :=
  have h := C7_yield_boundary_checks Peer.s70 .nop .nop [] (by decide)
  ⟨by decide, h.1, h.2.2.2.2.2.1⟩

/-- C8: after `_accept` has sent its KEEPALIVE the claim requires
`in_state = openconfirm`; the source instead executes the stray
`self._state = STATE.openconfirm` (`peer.py` line 252), so on the
concrete trace `acts8pre` the peer ends with `in_state` still
`active` and the stray attribute holding `openconfirm`.  The second
half of the claim holds: after the subsequent KEEPALIVE is read,
`in_state = established` and the final *urgent* is yielded. -/
theorem C8_keepalive_state_bug :
    ((Peer.runActs Peer.env8 Peer.nb8 Peer.acts8pre).map
        fun s => (s.inState, s.stray)) = some (.active, some .openconfirm) ∧
    ((Peer.runActs Peer.env8 Peer.nb8 Peer.acts8full).map
        fun s => s.inState) = some .established ∧
    (∀ (s : Peer.PState) (evs : List Peer.Ev),
      Peer.accReadKaPull s .keepalive (.fin :: evs)
        = some ({ s with inState := .established },
            .yield .urgent (.accK .final), evs)) := by
  refine ⟨by decide, by decide, fun _ _ => rfl⟩

/-- C10: `stop()` clears `running`, `restart` and `restarted` (the
flag passed to `new_open` that decides whether the next OPEN
advertises graceful-restart semantics) and resets `skip_until` and
`next_skip` to 0, while leaving both session states, both loop slots
and both protocol adapters unchanged. -/
theorem C10_stop_frame :
    ∀ s : Peer.PState,
      (Peer.stop s).running = false ∧ (Peer.stop s).restart = false ∧
      (Peer.stop s).restarted = false ∧ (Peer.stop s).skipTime = 0 ∧
      (Peer.stop s).nextSkip = 0 ∧ (Peer.stop s).inState = s.inState ∧
      (Peer.stop s).outState = s.outState ∧ (Peer.stop s).inLoop = s.inLoop ∧
      (Peer.stop s).outLoop = s.outLoop ∧ (Peer.stop s).inProto = s.inProto ∧
      (Peer.stop s).outProto = s.outProto ∧
      Peer.newOpenRestartFlag (Peer.stop s) = false :=
  fun _ => ⟨rfl, rfl, rfl, rfl, rfl, rfl, rfl, rfl, rfl, rfl, rfl, rfl⟩
